import Mathlib

/-!
Formal model of the core tracking-and-enforcement engine of the wellbeing
repository (src-tauri/src): the emergency-access grant map (limit_popup.rs),
the limit-enforcement / notification-dedup state machine (tracker.rs), the
focus-mode session and schedule evaluator (focus_mode.rs), the usage-session
accounting operations (database.rs), and the window-name normalizer
(window_tracker.rs).

Conventions of the shallow embedding:
* `i64` timestamps become `Int`; `u32` minute counts become `Nat`.
* Rust `HashMap<String, i64>` becomes an association list with an
  overwrite-on-insert operation; lookup returns the unique binding.
* The two in-memory daily ledgers carry their cached `last_reset_date`
  string exactly as in the Rust structs; the current local date and the
  current Unix time are passed in explicitly as parameters (`today`, `now`).
* The `f64` usage-ratio comparisons of tracker.rs are modelled exactly over
  `ℚ` (the thresholds 0.8 and 1.0 as the rationals 8/10 and 1); at the
  magnitudes involved the double-precision computation agrees with the
  exact rational one.
* `notify-send` dispatch (a call into the OS) is modelled by a boolean
  oracle giving the success of each dispatch attempt.
* Rust `i64` division truncates toward zero, hence `Int.tdiv`.
* String handling (`to_lowercase`, `to_uppercase` of the first character)
  is modelled at ASCII scope, which covers every table entry and fixture.
-/

namespace Wellbeing

/-! ### Association-list map primitives (for HashMap<String, i64>) -/

/-- Lookup in an association list; mirrors `HashMap::get`. -/
def mapLookup (m : List (String × Int)) (k : String) : Option Int :=
  match m with
  | [] => none
  | (k0, v) :: rest => if k0 = k then some v else mapLookup rest k

/-- Insert with overwrite; mirrors `HashMap::insert`. -/
def mapInsert (m : List (String × Int)) (k : String) (v : Int) : List (String × Int) :=
  (k, v) :: m.filter (fun p => p.1 ≠ k)

/-- Removal; mirrors `HashMap::remove`. -/
def mapErase (m : List (String × Int)) (k : String) : List (String × Int) :=
  m.filter (fun p => p.1 ≠ k)

/-! ### Emergency access grants (limit_popup.rs, `EmergencyAccessManager`) -/

/-- Duration of emergency access in seconds (10 minutes); limit_popup.rs. -/
def EMERGENCY_ACCESS_DURATION : Int := 10 * 60

/-- State of `EmergencyAccessManager`: the grant map (app name to expiry
Unix timestamp) and the cached date of the last daily reset. -/
structure EmergencyState where
  access_grants : List (String × Int)
  last_reset_date : String
deriving Repr, DecidableEq

/-- Mirrors `EmergencyAccessManager::reset_if_new_day`: on a date mismatch
clear the whole grant map and update the cached date. -/
def reset_if_new_day (today : String) (s : EmergencyState) : EmergencyState :=
  if s.last_reset_date ≠ today then
    { access_grants := [], last_reset_date := today }
  else s

/-- Mirrors `EmergencyAccessManager::grant_access`: rollover first, then
insert expiry = now + EMERGENCY_ACCESS_DURATION (overwriting), returning
the expiry. -/
def grant_access (today : String) (now : Int) (s : EmergencyState) (app_name : String) :
    EmergencyState × Int :=
  let s := reset_if_new_day today s
  let expiry := now + EMERGENCY_ACCESS_DURATION
  ({ s with access_grants := mapInsert s.access_grants app_name expiry }, expiry)

/-- Mirrors `EmergencyAccessManager::has_active_access`: rollover first,
then true iff a grant exists with expiry strictly in the future. -/
def has_active_access (today : String) (now : Int) (s : EmergencyState) (app_name : String) :
    EmergencyState × Bool :=
  let s := reset_if_new_day today s
  match mapLookup s.access_grants app_name with
  | some expiry => (s, decide (now < expiry))
  | none => (s, false)

/-- Mirrors `EmergencyAccessManager::get_remaining_time`: rollover first,
then the positive part of expiry - now (0 when absent or expired). -/
def get_remaining_time (today : String) (now : Int) (s : EmergencyState) (app_name : String) :
    EmergencyState × Int :=
  let s := reset_if_new_day today s
  match mapLookup s.access_grants app_name with
  | some expiry => (s, if 0 < expiry - now then expiry - now else 0)
  | none => (s, 0)

/-- Mirrors `EmergencyAccessManager::revoke_access`: removes the single
entry. Note: the Rust function performs no daily-rollover check. -/
def revoke_access (s : EmergencyState) (app_name : String) : EmergencyState :=
  { s with access_grants := mapErase s.access_grants app_name }

/-- Mirrors `EmergencyAccessManager::cleanup_expired`: retain only grants
whose expiry is strictly in the future; no daily-rollover check either. -/
def cleanup_expired (now : Int) (s : EmergencyState) : EmergencyState :=
  { s with access_grants := s.access_grants.filter (fun p => ¬ p.2 ≤ now) }

/-! ### Notification dedup and limit enforcement (tracker.rs) -/

/-- The two notification kinds of tracker.rs. -/
inductive NotificationType
  | Warning
  | Exceeded
deriving Repr, DecidableEq

/-- The portion of `UsageTracker` state that the enforcement pass touches:
the set of (app, kind) notifications already sent today and the cached
date of the last daily reset. -/
structure TrackerState where
  sent_notifications : List (String × NotificationType)
  last_reset_date : String
deriving Repr, DecidableEq

/-- Mirrors `UsageTracker::reset_notifications_if_new_day`. -/
def reset_notifications_if_new_day (today : String) (s : TrackerState) : TrackerState :=
  if s.last_reset_date ≠ today then
    { sent_notifications := [], last_reset_date := today }
  else s

/-- Mirrors `UsageTracker::send_notification_if_not_sent`. `dispatch_ok`
is the outcome of `send_system_notification` for this attempt; the ledger
records the (app, kind) key only when dispatch succeeds. Returns the new
state and whether the notification was actually sent. -/
def send_notification_if_not_sent (dispatch_ok : Bool) (s : TrackerState)
    (app_name : String) (nt : NotificationType) : TrackerState × Bool :=
  if (app_name, nt) ∈ s.sent_notifications then (s, false)
  else if dispatch_ok then
    ({ s with sent_notifications := (app_name, nt) :: s.sent_notifications }, true)
  else (s, false)

/-- One row of `Database::get_all_limit_status`: app name, configured
daily limit in minutes, seconds used today, and the block flag. -/
structure LimitStatus where
  app_name : String
  limit_minutes : Int
  used_seconds : Int
  block_when_exceeded : Bool
deriving Repr, DecidableEq

/-- An alert actually emitted by the enforcement pass; the Warning carries
the remaining-minutes figure placed in the notification title. -/
structure FiredNotification where
  app_name : String
  kind : NotificationType
  remaining_minutes : Option Int
deriving Repr, DecidableEq

/-- Threshold constant WARNING_THRESHOLD = 0.8 of tracker.rs. -/
def WARNING_THRESHOLD : ℚ := 8 / 10

/-- Threshold constant EXCEEDED_THRESHOLD = 1.0 of tracker.rs. -/
def EXCEEDED_THRESHOLD : ℚ := 1

/-- The body of the per-app loop of `UsageTracker::check_limits_and_notify`:
skip zero limits, compare the usage ratio against the two thresholds, and
attempt at most one (deduplicated) notification. `oracle` gives the
dispatch outcome per (app, kind). -/
def check_one_limit (oracle : String → NotificationType → Bool) (st : LimitStatus)
    (acc : TrackerState × List FiredNotification) : TrackerState × List FiredNotification :=
  let limit_seconds : Int := st.limit_minutes * 60
  if limit_seconds = 0 then acc
  else
    let usage_ratio : ℚ := (st.used_seconds : ℚ) / (limit_seconds : ℚ)
    if EXCEEDED_THRESHOLD ≤ usage_ratio then
      match send_notification_if_not_sent (oracle st.app_name .Exceeded) acc.1
          st.app_name .Exceeded with
      | (s1, true) => (s1, acc.2 ++ [⟨st.app_name, .Exceeded, none⟩])
      | (s1, false) => (s1, acc.2)
    else if WARNING_THRESHOLD ≤ usage_ratio then
      let remaining_minutes : Int := max ((limit_seconds - st.used_seconds).tdiv 60) 1
      match send_notification_if_not_sent (oracle st.app_name .Warning) acc.1
          st.app_name .Warning with
      | (s1, true) => (s1, acc.2 ++ [⟨st.app_name, .Warning, some remaining_minutes⟩])
      | (s1, false) => (s1, acc.2)
    else acc

/-- Mirrors `UsageTracker::check_limits_and_notify`: daily rollover of the
dedup ledger, then the per-app enforcement loop over the limit statuses.
Also returns the list of alerts that actually fired during the pass. -/
def check_limits_and_notify (oracle : String → NotificationType → Bool) (today : String)
    (statuses : List LimitStatus) (s : TrackerState) :
    TrackerState × List FiredNotification :=
  let s := reset_notifications_if_new_day today s
  statuses.foldl (fun acc st => check_one_limit oracle st acc) (s, [])

/-- Mirrors `Database::is_app_blocked`: the SQL query yields a row iff the
app has a limit with `block_when_exceeded = 1`; the row carries the limit
minutes and the (nonnegative) seconds used today; blocked iff
used_seconds >= limit_minutes * 60. -/
def is_app_blocked (limit_row : Option (Int × Int)) : Bool :=
  match limit_row with
  | some (limit_minutes, used_seconds) => decide (limit_minutes * 60 ≤ used_seconds)
  | none => false

/-! ### Usage-session accounting (database.rs) -/

/-- One row of the `usage_sessions` table, restricted to the columns the
accounting operations touch. -/
structure UsageSession where
  start_time : Int
  end_time : Int
  duration_seconds : Int
deriving Repr, DecidableEq

/-- Mirrors `Database::start_session`: INSERT with end_time = start_time
and duration_seconds = 0. -/
def start_session (start_time : Int) : UsageSession :=
  { start_time := start_time, end_time := start_time, duration_seconds := 0 }

/-- Mirrors `Database::update_session_duration`: UPDATE setting
end_time and duration_seconds = end_time - start_time. -/
def update_session_duration (s : UsageSession) (end_time : Int) : UsageSession :=
  { s with end_time := end_time, duration_seconds := end_time - s.start_time }

/-- Mirrors `Database::end_session`: SELECT the start_time, compute the
duration, then UPDATE end_time and duration_seconds. -/
def end_session (s : UsageSession) (end_time : Int) : UsageSession :=
  let duration := end_time - s.start_time
  { s with end_time := end_time, duration_seconds := duration }

/-- Folding a sequence of periodic duration refreshes over a session, as
the fast tick of tracker.rs does between open and close. -/
def apply_updates (s : UsageSession) (ends : List Int) : UsageSession :=
  ends.foldl update_session_duration s

/-- The session invariant stated in the specification. -/
def SessionInv (s : UsageSession) : Prop :=
  s.start_time ≤ s.end_time ∧ s.duration_seconds = s.end_time - s.start_time

/-! ### Focus schedules and sessions (focus_mode.rs) -/

/-- Mirrors struct `FocusSchedule`. -/
structure FocusSchedule where
  id : String
  name : String
  days : List Nat
  start_time : String
  end_time : String
  blocked_apps : List String
  enabled : Bool
deriving Repr, DecidableEq

/-- A local wall-clock instant as `FocusSchedule::is_active_at` consumes
it: the weekday (0 = Sunday .. 6 = Saturday, chrono's
`num_days_from_sunday`) and the time of day in seconds since midnight. -/
structure LocalNow where
  weekday : Nat
  time_of_day : Nat
deriving Repr, DecidableEq

/-- Split a character list at every colon (the list-level behavior of
splitting a string on the separator ":"). -/
def splitOnColon : List Char → List (List Char)
  | [] => [[]]
  | c :: t =>
    if c = ':' then [] :: splitOnColon t
    else
      match splitOnColon t with
      | [] => [[c]]
      | a :: rest => (c :: a) :: rest

/-- Parse a nonempty all-digit character list as a decimal number. -/
def digitsToNat (l : List Char) : Option Nat :=
  if l ≠ [] ∧ l.all Char.isDigit then
    some (l.foldl (fun acc c => acc * 10 + (c.toNat - 48)) 0)
  else none

/-- Model of chrono's `NaiveTime::parse_from_str(s, "%H:%M")` on its
accepted inputs: one or two hour digits below 24, at most two minute
digits below 60, joined by a single colon; the result is the time as
seconds since midnight. -/
def parse_hm (s : String) : Option Nat :=
  match splitOnColon s.toList with
  | [h, m] =>
    match digitsToNat h, digitsToNat m with
    | some hh, some mm =>
      if h.length ≤ 2 ∧ m.length ≤ 2 ∧ hh < 24 ∧ mm < 60 then
        some (hh * 3600 + mm * 60)
      else none
    | _, _ => none
  | _ => none

/-- Mirrors `FocusSchedule::is_active_at`: false when disabled or when the
weekday is outside the day set; otherwise parse both times and apply the
overnight-aware window test; unparsable times give false. -/
def is_active_at (sch : FocusSchedule) (now : LocalNow) : Bool :=
  if !sch.enabled then false
  else if !(sch.days.contains now.weekday) then false
  else
    match parse_hm sch.start_time, parse_hm sch.end_time with
    | some start, some stop =>
      if stop < start then
        decide (start ≤ now.time_of_day) || decide (now.time_of_day < stop)
      else
        decide (start ≤ now.time_of_day) && decide (now.time_of_day < stop)
    | _, _ => false

/-- Mirrors struct `FocusSession`. -/
structure FocusSession where
  is_active : Bool
  start_time : Option Int
  end_time : Option Int
  duration_minutes : Option Nat
  minutes_remaining : Option Nat
  blocked_apps : List String
  is_scheduled : Bool
  schedule_name : Option String
deriving Repr, DecidableEq

/-- The portion of `FocusManager` state that `extend_session` touches: the
atomic is-active flag and the current session. -/
structure FocusManagerState where
  is_active : Bool
  session : FocusSession
deriving Repr, DecidableEq

/-- Mirrors `FocusManager::extend_session`: None when the manager is
inactive; otherwise, when the session has an end_time, push end_time out
by additional_minutes * 60 and add the minutes to duration_minutes (when
present), and in every active case return Some of the (possibly updated)
session. -/
def extend_session (s : FocusManagerState) (additional_minutes : Nat) :
    Option FocusSession × FocusManagerState :=
  if !s.is_active then (none, s)
  else
    match s.session.end_time with
    | some current_end =>
      let new_end := current_end + (additional_minutes : Int) * 60
      let updated : FocusSession :=
        { s.session with
          end_time := some new_end
          duration_minutes :=
            match s.session.duration_minutes with
            | some d => some (d + additional_minutes)
            | none => none }
      (some updated, { s with session := updated })
    | none => (some s.session, s)

/-! ### Window-name normalization (window_tracker.rs) -/

/-- Mirrors struct `AppMapping`: optional exact key, optional contains
pattern, display name. -/
structure AppMapping where
  exact : Option String
  contains : Option String
  display_name : String
deriving Repr, DecidableEq

/-- Transcription of the static APP_MAPPINGS table, in source order. -/
def APP_MAPPINGS : List AppMapping := [
  ⟨some "firefox", some "firefox", "Firefox"⟩,
  ⟨some "google-chrome", some "chrome", "Chrome"⟩,
  ⟨some "chromium", some "chromium", "Chromium"⟩,
  ⟨some "brave-browser", some "brave", "Brave"⟩,
  ⟨some "zen-alpha", some "zen", "Zen Browser"⟩,
  ⟨some "msedge", some "edge", "Microsoft Edge"⟩,
  ⟨some "code", some "visual studio code", "Visual Studio Code"⟩,
  ⟨some "vscodium", none, "VSCodium"⟩,
  ⟨some "zed", none, "Zed"⟩,
  ⟨some "cursor", none, "Cursor"⟩,
  ⟨none, some "notepad++", "Notepad++"⟩,
  ⟨none, some "sublime_text", "Sublime Text"⟩,
  ⟨none, some "alacritty", "Alacritty"⟩,
  ⟨none, some "kitty", "kitty"⟩,
  ⟨none, some "ghostty", "Ghostty"⟩,
  ⟨none, some "foot", "Foot"⟩,
  ⟨none, some "wezterm", "WezTerm"⟩,
  ⟨none, some "terminal", "Terminal"⟩,
  ⟨none, some "konsole", "Terminal"⟩,
  ⟨none, some "gnome-terminal", "Terminal"⟩,
  ⟨none, some "windowsterminal", "Windows Terminal"⟩,
  ⟨some "cmd", none, "Command Prompt"⟩,
  ⟨some "powershell", none, "PowerShell"⟩,
  ⟨some "discord", some "discord", "Discord"⟩,
  ⟨some "slack", none, "Slack"⟩,
  ⟨none, some "telegram", "Telegram"⟩,
  ⟨none, some "thunderbird", "Thunderbird"⟩,
  ⟨none, some "teams", "Microsoft Teams"⟩,
  ⟨none, some "outlook", "Outlook"⟩,
  ⟨some "spotify", none, "Spotify"⟩,
  ⟨none, some "vlc", "VLC"⟩,
  ⟨some "obsidian", none, "Obsidian"⟩,
  ⟨none, some "libreoffice", "LibreOffice"⟩,
  ⟨none, some "notion", "Notion"⟩,
  ⟨some "explorer", none, "File Explorer"⟩,
  ⟨none, some "winword", "Microsoft Word"⟩,
  ⟨none, some "excel", "Microsoft Excel"⟩,
  ⟨none, some "powerpnt", "Microsoft PowerPoint"⟩,
  ⟨some "gimp", none, "GIMP"⟩,
  ⟨some "inkscape", none, "Inkscape"⟩,
  ⟨none, some "blender", "Blender"⟩,
  ⟨none, some "photoshop", "Photoshop"⟩,
  ⟨some "nautilus", none, "Files"⟩,
  ⟨some "org.gnome.nautilus", none, "Files"⟩,
  ⟨some "thunar", none, "Thunar"⟩,
  ⟨some "dolphin", none, "Dolphin"⟩,
  ⟨some "steam", none, "Steam"⟩,
  ⟨some "wellbeing", none, "Digital Wellbeing"⟩,
  ⟨none, some "opencode", "OpenCode"⟩]

/-- Lookup in EXACT_MATCH_MAP, the HashMap built by inserting every
`exact` key of APP_MAPPINGS in order (later inserts overwrite): the value
is the display name of the last mapping carrying that exact key. -/
def exactMatchLookup (key : String) : Option String :=
  APP_MAPPINGS.foldl
    (fun acc m =>
      match m.exact with
      | some k => if k = key then some m.display_name else acc
      | none => acc)
    none

/-- Mirrors Rust `str::to_lowercase` at ASCII scope (which covers every
key of the matching table): lower-case every character. -/
def toLowerString (s : String) : String :=
  String.mk (s.toList.map Char.toLower)

/-- Check that `l` starts with `pat` (character-wise). -/
def listStartsWith : List Char → List Char → Bool
  | _, [] => true
  | [], _ :: _ => false
  | c :: cs, p :: ps => if c = p then listStartsWith cs ps else false

/-- Check that `pat` occurs contiguously inside `l`. -/
def listContainsSub (pat : List Char) : List Char → Bool
  | [] => listStartsWith [] pat
  | c :: t => listStartsWith (c :: t) pat || listContainsSub pat t

/-- Mirrors Rust `str::contains` for valid UTF-8 pattern and haystack
(byte-level search coincides with character-level search there). -/
def strContainsSub (s pat : String) : Bool :=
  listContainsSub pat.toList s.toList

/-- The ordered contains-pattern scan of `extract_app_name`'s slow path:
first mapping whose pattern occurs in the lower-cased name wins. -/
def containsScan (name_lower : String) : List AppMapping → Option String
  | [] => none
  | m :: rest =>
    match m.contains with
    | some pat =>
      if strContainsSub name_lower pat then some m.display_name
      else containsScan name_lower rest
    | none => containsScan name_lower rest

/-- Mirrors `capitalize_first`: upper-case the first character, keep the
rest (ASCII scope). -/
def capitalize_first (s : String) : String :=
  match s.toList with
  | [] => ""
  | c :: rest => String.mk (c.toUpper :: rest)

/-- Mirrors `extract_app_name`: empty input is rejected; exact-map lookup
on the lower-cased name wins; then the two special title checks on the
raw name; then the ordered contains scan; finally the capitalize fallback,
rejected (None) when its byte length is below 2. -/
def extract_app_name (window_name : String) : Option String :=
  if window_name = "" then none
  else
    let name_lower := toLowerString window_name
    match exactMatchLookup name_lower with
    | some display_name => some display_name
    | none =>
      if strContainsSub window_name "- Code" then some "Visual Studio Code"
      else if strContainsSub window_name "Digital Wellbeing" then some "Digital Wellbeing"
      else
        match containsScan name_lower APP_MAPPINGS with
        | some display_name => some display_name
        | none =>
          let app_name := capitalize_first window_name
          if app_name.utf8ByteSize < 2 then none else some app_name

/-- The overnight schedule fixture of the focus_mode.rs tests: enabled
every day, start 22:00, end 06:00. -/
def night_schedule : FocusSchedule :=
  ⟨"night", "Night Work", [0, 1, 2, 3, 4, 5, 6], "22:00", "06:00", ["Discord"], true⟩

/-! ### Helper lemmas -/

theorem reset_if_new_day_last (today : String) (s : EmergencyState) :
    (reset_if_new_day today s).last_reset_date = today := by
  unfold reset_if_new_day
  split
  · rfl
  · next h => exact not_ne_iff.mp h

theorem reset_if_new_day_of_today (today : String) (s : EmergencyState)
    (h : s.last_reset_date = today) : reset_if_new_day today s = s := by
  simp [reset_if_new_day, h]

theorem mapLookup_insert_self (m : List (String × Int)) (k : String) (v : Int) :
    mapLookup (mapInsert m k v) k = some v := by
  simp [mapInsert, mapLookup]

theorem grant_access_last (today : String) (now : Int) (s : EmergencyState) (app : String) :
    (grant_access today now s app).1.last_reset_date = today := by
  simp [grant_access]
  exact reset_if_new_day_last today s

theorem reset_notifications_of_today (today : String) (s : TrackerState)
    (h : s.last_reset_date = today) : reset_notifications_if_new_day today s = s := by
  simp [reset_notifications_if_new_day, h]

theorem send_not_sent_fires (s : TrackerState) (app : String) (nt : NotificationType)
    (hn : (app, nt) ∉ s.sent_notifications) :
    send_notification_if_not_sent true s app nt =
      ({ s with sent_notifications := (app, nt) :: s.sent_notifications }, true) := by
  simp [send_notification_if_not_sent, hn]

theorem send_already_sent (ok : Bool) (s : TrackerState) (app : String)
    (nt : NotificationType) (hm : (app, nt) ∈ s.sent_notifications) :
    send_notification_if_not_sent ok s app nt = (s, false) := by
  simp [send_notification_if_not_sent, hm]

theorem send_dispatch_fail (s : TrackerState) (app : String) (nt : NotificationType) :
    send_notification_if_not_sent false s app nt = (s, false) := by
  simp [send_notification_if_not_sent]

theorem check_limits_singleton (o : String → NotificationType → Bool) (today : String)
    (st : LimitStatus) (s : TrackerState) :
    check_limits_and_notify o today [st] s =
      check_one_limit o st (reset_notifications_if_new_day today s, []) := rfl

theorem check_one_skip_zero (o : String → NotificationType → Bool) (app : String)
    (used : Int) (b : Bool) (s : TrackerState) (fired : List FiredNotification) :
    check_one_limit o ⟨app, 0, used, b⟩ (s, fired) = (s, fired) := by
  simp [check_one_limit]

theorem check_one_exceeded_fires (o : String → NotificationType → Bool) (app : String)
    (lm used : Int) (b : Bool) (s : TrackerState) (fired : List FiredNotification)
    (h0 : ¬ lm * 60 = 0)
    (hE : EXCEEDED_THRESHOLD ≤ (used : ℚ) / ((lm : ℚ) * 60))
    (ho : o app .Exceeded = true)
    (hn : (app, NotificationType.Exceeded) ∉ s.sent_notifications) :
    check_one_limit o ⟨app, lm, used, b⟩ (s, fired) =
      ({ s with sent_notifications := (app, .Exceeded) :: s.sent_notifications },
        fired ++ [⟨app, .Exceeded, none⟩]) := by
  simp [check_one_limit, send_notification_if_not_sent, h0, hE, ho, hn]

theorem check_one_exceeded_dedup (o : String → NotificationType → Bool) (app : String)
    (lm used : Int) (b : Bool) (s : TrackerState) (fired : List FiredNotification)
    (h0 : ¬ lm * 60 = 0)
    (hE : EXCEEDED_THRESHOLD ≤ (used : ℚ) / ((lm : ℚ) * 60))
    (hm : (app, NotificationType.Exceeded) ∈ s.sent_notifications) :
    check_one_limit o ⟨app, lm, used, b⟩ (s, fired) = (s, fired) := by
  simp [check_one_limit, send_notification_if_not_sent, h0, hE, hm]

theorem check_one_exceeded_dispatch_fail (o : String → NotificationType → Bool)
    (app : String) (lm used : Int) (b : Bool) (s : TrackerState)
    (fired : List FiredNotification)
    (h0 : ¬ lm * 60 = 0)
    (hE : EXCEEDED_THRESHOLD ≤ (used : ℚ) / ((lm : ℚ) * 60))
    (ho : o app .Exceeded = false) :
    check_one_limit o ⟨app, lm, used, b⟩ (s, fired) = (s, fired) := by
  simp [check_one_limit, send_notification_if_not_sent, h0, hE, ho]

theorem check_one_warning_fires (o : String → NotificationType → Bool) (app : String)
    (lm used : Int) (b : Bool) (s : TrackerState) (fired : List FiredNotification)
    (h0 : ¬ lm * 60 = 0)
    (hWlt : ¬ EXCEEDED_THRESHOLD ≤ (used : ℚ) / ((lm : ℚ) * 60))
    (hW : WARNING_THRESHOLD ≤ (used : ℚ) / ((lm : ℚ) * 60))
    (ho : o app .Warning = true)
    (hn : (app, NotificationType.Warning) ∉ s.sent_notifications) :
    check_one_limit o ⟨app, lm, used, b⟩ (s, fired) =
      ({ s with sent_notifications := (app, .Warning) :: s.sent_notifications },
        fired ++ [⟨app, .Warning, some (max ((lm * 60 - used).tdiv 60) 1)⟩]) := by
  simp [check_one_limit, send_notification_if_not_sent, h0, hWlt, hW, ho, hn]

theorem check_one_warning_dedup (o : String → NotificationType → Bool) (app : String)
    (lm used : Int) (b : Bool) (s : TrackerState) (fired : List FiredNotification)
    (h0 : ¬ lm * 60 = 0)
    (hWlt : ¬ EXCEEDED_THRESHOLD ≤ (used : ℚ) / ((lm : ℚ) * 60))
    (hW : WARNING_THRESHOLD ≤ (used : ℚ) / ((lm : ℚ) * 60))
    (hm : (app, NotificationType.Warning) ∈ s.sent_notifications) :
    check_one_limit o ⟨app, lm, used, b⟩ (s, fired) = (s, fired) := by
  simp [check_one_limit, send_notification_if_not_sent, h0, hWlt, hW, hm]

theorem apply_updates_inv (s : UsageSession) (ends : List Int) (h : SessionInv s)
    (he : ∀ x ∈ ends, s.start_time ≤ x) : SessionInv (apply_updates s ends) := by
  induction ends generalizing s with
  | nil => exact h
  | cons a l ih =>
    have ha : s.start_time ≤ a := he a (by simp)
    refine ih (update_session_duration s a) ⟨ha, rfl⟩ ?_
    intro x hx
    exact he x (by simp [hx])

/-! ### Claim theorems -/

/-- Claim C2, counterexample: `revoke_access` does not perform the
daily-rollover clear. With the cached date one day behind, revoking one
app leaves the other grant in place and the stale cached date untouched,
whereas a rollover-first operation would have cleared the whole map and
set the date to the current day. -/
theorem revoke_access_skips_rollover_cex :
    revoke_access ⟨[("Firefox", 100), ("Chrome", 200)], "2026-10-11"⟩ "Firefox" =
      ⟨[("Chrome", 200)], "2026-10-11"⟩ ∧
    ("2026-10-11" : String) ≠ "2026-10-12" := by
  exact ⟨by decide, by decide⟩

/-- Claim C2, amended: `grant_access`, `has_active_access` and
`get_remaining_time` all perform the daily-rollover clear first (compare
the cached date to the current date, clear the whole grant map and update
the cached date on mismatch), but `revoke_access` does not — it only
removes the one entry — and `cleanup_expired` performs no rollover
either. -/
theorem daily_rollover_per_operation (today : String) (now : Int) (s : EmergencyState)
    (app : String) (h : s.last_reset_date ≠ today) :
    (grant_access today now s app).1.access_grants =
      [(app, now + EMERGENCY_ACCESS_DURATION)] ∧
    (grant_access today now s app).1.last_reset_date = today ∧
    has_active_access today now s app = (⟨[], today⟩, false) ∧
    get_remaining_time today now s app = (⟨[], today⟩, 0) ∧
    (revoke_access s app).last_reset_date = s.last_reset_date ∧
    (revoke_access s app).access_grants = mapErase s.access_grants app ∧
    (cleanup_expired now s).last_reset_date = s.last_reset_date := by
  refine ⟨?_, grant_access_last today now s app, ?_, ?_, rfl, rfl, rfl⟩
  · simp [grant_access, reset_if_new_day, h, mapInsert]
  · simp [has_active_access, reset_if_new_day, h, mapLookup]
  · simp [get_remaining_time, reset_if_new_day, h, mapLookup]

/-- Claim C2, witness for the amended statement at a concrete stale
state. -/
theorem daily_rollover_per_operation_witness :
    (grant_access "2026-10-12" 1000 ⟨[("Firefox", 99)], "2026-10-11"⟩ "Chrome").1.access_grants =
      [("Chrome", 1000 + EMERGENCY_ACCESS_DURATION)] ∧
    has_active_access "2026-10-12" 1000 ⟨[("Firefox", 99)], "2026-10-11"⟩ "Chrome" =
      (⟨[], "2026-10-12"⟩, false) := by
  have h := daily_rollover_per_operation "2026-10-12" 1000
    ⟨[("Firefox", 99)], "2026-10-11"⟩ "Chrome" (by decide)
  exact ⟨h.1, h.2.2.1⟩

/-- Claim C3, counterexample: on an active session with no end_time
(indefinite), `extend_session` does not return nothing — it returns Some
of the unchanged session. -/
theorem extend_indefinite_returns_some_cex :
    (extend_session ⟨true, ⟨true, some 0, none, none, none, [], false, none⟩⟩ 10).1 =
      some ⟨true, some 0, none, none, none, [], false, none⟩ ∧
    (extend_session ⟨true, ⟨true, some 0, none, none, none, [], false, none⟩⟩ 10).1 ≠
      none := by
  exact ⟨rfl, by decide⟩

/-- Claim C3, amended: `extend_session(extra_minutes)` returns nothing
only when the manager is inactive; when active but indefinite (no
end_time) it leaves the session unchanged but returns Some of it; when
active and time-bounded it adds the minutes to both end_time and
duration_minutes — in particular a 25-minute session extended by 10
minutes ends with duration_minutes 35 and end_time advanced by exactly
600 seconds. -/
theorem extend_session_behavior (sess : FocusSession) (m d : Nat) (e : Int) :
    extend_session ⟨false, sess⟩ m = (none, ⟨false, sess⟩) ∧
    extend_session ⟨true, { sess with end_time := none }⟩ m =
      (some { sess with end_time := none }, ⟨true, { sess with end_time := none }⟩) ∧
    extend_session ⟨true, { sess with end_time := some e, duration_minutes := some d }⟩ m =
      (some { sess with
          end_time := some (e + (m : Int) * 60)
          duration_minutes := some (d + m) },
        ⟨true, { sess with
          end_time := some (e + (m : Int) * 60)
          duration_minutes := some (d + m) }⟩) ∧
    (extend_session ⟨true, { sess with end_time := some e, duration_minutes := some 25 }⟩
        10).1 =
      some { sess with end_time := some (e + 600), duration_minutes := some 35 } := by
  refine ⟨rfl, rfl, rfl, ?_⟩
  norm_num [extend_session]

/-- Claim C4: a session freshly created by `start_session` has
end_time = start_time and duration_seconds = 0; `update_session_duration`
and `end_session` with an end timestamp not earlier than the start
preserve the invariants end_time >= start_time and
duration_seconds = end_time - start_time, and they agree; folding any
sequence of such refreshes over a fresh session keeps the invariant. -/
theorem session_duration_invariant (t : Int) (s : UsageSession) (e : Int) (ends : List Int)
    (hse : s.start_time ≤ e) (hends : ∀ x ∈ ends, t ≤ x) :
    ((start_session t).end_time = (start_session t).start_time ∧
      (start_session t).duration_seconds = 0 ∧ SessionInv (start_session t)) ∧
    SessionInv (update_session_duration s e) ∧
    SessionInv (end_session s e) ∧
    end_session s e = update_session_duration s e ∧
    SessionInv (apply_updates (start_session t) ends) := by
  have hfresh : SessionInv (start_session t) := by
    unfold SessionInv start_session
    exact ⟨le_refl t, by simp⟩
  refine ⟨⟨rfl, rfl, hfresh⟩, ⟨hse, rfl⟩, ⟨hse, rfl⟩, rfl, ?_⟩
  exact apply_updates_inv (start_session t) ends hfresh (fun x hx => hends x hx)

/-- Claim C4, witness at a concrete session history. -/
theorem session_duration_invariant_witness :
    SessionInv (update_session_duration ⟨100, 100, 0⟩ 105) ∧
    SessionInv (apply_updates (start_session 100) [105, 112]) := by
  have h := session_duration_invariant 100 ⟨100, 100, 0⟩ 105 [105, 112]
    (by norm_num)
    (by intro x hx; simp at hx; rcases hx with h | h <;> simp [h])
  exact ⟨h.2.1, h.2.2.2.2⟩

/-- Claim C5: `grant_access` returns expiry = now + 600 and overwrites any
prior grant for the app; immediately after the grant, `has_active_access`
is true and `get_remaining_time` is positive and at most 600; in general,
`has_active_access` is true iff a grant exists (after rollover) with
expiry strictly greater than now, and `get_remaining_time` equals
max 0 (expiry - now), 0 when no grant exists. -/
theorem emergency_grant_semantics (today : String) (now : Int) (s : EmergencyState)
    (app : String) :
    (grant_access today now s app).2 = now + EMERGENCY_ACCESS_DURATION ∧
    mapLookup (grant_access today now s app).1.access_grants app =
      some (now + EMERGENCY_ACCESS_DURATION) ∧
    (has_active_access today now (grant_access today now s app).1 app).2 = true ∧
    0 < (get_remaining_time today now (grant_access today now s app).1 app).2 ∧
    (get_remaining_time today now (grant_access today now s app).1 app).2 ≤
      EMERGENCY_ACCESS_DURATION ∧
    ((has_active_access today now s app).2 = true ↔
      ∃ e, mapLookup (reset_if_new_day today s).access_grants app = some e ∧ now < e) ∧
    (get_remaining_time today now s app).2 =
      (match mapLookup (reset_if_new_day today s).access_grants app with
        | some e => max 0 (e - now)
        | none => 0) := by
  have hlook : mapLookup (grant_access today now s app).1.access_grants app =
      some (now + EMERGENCY_ACCESS_DURATION) := by
    show mapLookup (mapInsert (reset_if_new_day today s).access_grants app
      (now + EMERGENCY_ACCESS_DURATION)) app = some (now + EMERGENCY_ACCESS_DURATION)
    exact mapLookup_insert_self _ _ _
  have hres : reset_if_new_day today (grant_access today now s app).1 =
      (grant_access today now s app).1 :=
    reset_if_new_day_of_today today _ (grant_access_last today now s app)
  have hrem : (get_remaining_time today now (grant_access today now s app).1 app).2 =
      EMERGENCY_ACCESS_DURATION := by
    simp [get_remaining_time, hres, hlook, EMERGENCY_ACCESS_DURATION]
  refine ⟨rfl, hlook, ?_, ?_, ?_, ?_, ?_⟩
  · simp [has_active_access, hres, hlook, EMERGENCY_ACCESS_DURATION]
  · rw [hrem]; decide
  · rw [hrem]
  · cases hcase : mapLookup (reset_if_new_day today s).access_grants app with
    | none => simp [has_active_access, hcase]
    | some e => simp [has_active_access, hcase]
  · cases hcase : mapLookup (reset_if_new_day today s).access_grants app with
    | none => simp [get_remaining_time, hcase]
    | some e =>
      simp only [get_remaining_time, hcase]
      rw [max_def]
      split <;> split <;> omega

/-- Claim C1: with dispatch succeeding, an enforcement pass over an app
with a positive limit fires a Warning (with remaining minutes
max(1, (limit_seconds - used_seconds)/60)) when the usage ratio is in
[0.8, 1), and an Exceeded alert when the ratio is at least 1; a second
pass at the same ratio does not re-fire the same kind, while the
higher-severity Exceeded kind still fires after a Warning was recorded,
and itself fires at most once. -/
theorem enforcement_thresholds_and_dedup (app today : String) (lm usedW usedE : Int)
    (b : Bool) (s0 : TrackerState)
    (hpos : 0 < lm)
    (hdate : s0.last_reset_date = today)
    (hW : WARNING_THRESHOLD ≤ (usedW : ℚ) / ((lm : ℚ) * 60))
    (hWlt : ¬ EXCEEDED_THRESHOLD ≤ (usedW : ℚ) / ((lm : ℚ) * 60))
    (hE : EXCEEDED_THRESHOLD ≤ (usedE : ℚ) / ((lm : ℚ) * 60))
    (hnW : (app, NotificationType.Warning) ∉ s0.sent_notifications)
    (hnE : (app, NotificationType.Exceeded) ∉ s0.sent_notifications) :
    (check_limits_and_notify (fun _ _ => true) today [⟨app, lm, usedW, b⟩] s0).2 =
      [⟨app, NotificationType.Warning, some (max ((lm * 60 - usedW).tdiv 60) 1)⟩] ∧
    (check_limits_and_notify (fun _ _ => true) today [⟨app, lm, usedW, b⟩]
      (check_limits_and_notify (fun _ _ => true) today [⟨app, lm, usedW, b⟩] s0).1).2 = [] ∧
    (check_limits_and_notify (fun _ _ => true) today [⟨app, lm, usedE, b⟩]
      (check_limits_and_notify (fun _ _ => true) today [⟨app, lm, usedW, b⟩] s0).1).2 =
      [⟨app, NotificationType.Exceeded, none⟩] ∧
    (check_limits_and_notify (fun _ _ => true) today [⟨app, lm, usedE, b⟩] s0).2 =
      [⟨app, NotificationType.Exceeded, none⟩] ∧
    (check_limits_and_notify (fun _ _ => true) today [⟨app, lm, usedE, b⟩]
      (check_limits_and_notify (fun _ _ => true) today [⟨app, lm, usedE, b⟩] s0).1).2 =
      [] := by
  have h0 : ¬ lm * 60 = 0 := by omega
  have hnW1 : (app, NotificationType.Warning) ∈
      (app, NotificationType.Warning) :: s0.sent_notifications := by simp
  have hnE1 : (app, NotificationType.Exceeded) ∉
      (app, NotificationType.Warning) :: s0.sent_notifications := by simp [hnE]
  have hnE2 : (app, NotificationType.Exceeded) ∈
      (app, NotificationType.Exceeded) :: s0.sent_notifications := by simp
  have e1 : check_limits_and_notify (fun _ _ => true) today [⟨app, lm, usedW, b⟩] s0 =
      ({ s0 with sent_notifications := (app, .Warning) :: s0.sent_notifications },
        [⟨app, .Warning, some (max ((lm * 60 - usedW).tdiv 60) 1)⟩]) := by
    rw [check_limits_singleton, reset_notifications_of_today today s0 hdate,
      check_one_warning_fires _ app lm usedW b s0 [] h0 hWlt hW rfl hnW]
    rfl
  have e2 : check_limits_and_notify (fun _ _ => true) today [⟨app, lm, usedW, b⟩]
      ({ s0 with sent_notifications := (app, .Warning) :: s0.sent_notifications }) =
      ({ s0 with sent_notifications := (app, .Warning) :: s0.sent_notifications }, []) := by
    rw [check_limits_singleton,
      reset_notifications_of_today today
        { s0 with sent_notifications := (app, .Warning) :: s0.sent_notifications } hdate,
      check_one_warning_dedup _ app lm usedW b
        { s0 with sent_notifications := (app, .Warning) :: s0.sent_notifications }
        [] h0 hWlt hW hnW1]
  have e3 : check_limits_and_notify (fun _ _ => true) today [⟨app, lm, usedE, b⟩]
      ({ s0 with sent_notifications := (app, .Warning) :: s0.sent_notifications }) =
      ({ s0 with sent_notifications :=
          (app, .Exceeded) :: (app, .Warning) :: s0.sent_notifications },
        [⟨app, .Exceeded, none⟩]) := by
    rw [check_limits_singleton,
      reset_notifications_of_today today
        { s0 with sent_notifications := (app, .Warning) :: s0.sent_notifications } hdate,
      check_one_exceeded_fires _ app lm usedE b
        { s0 with sent_notifications := (app, .Warning) :: s0.sent_notifications }
        [] h0 hE rfl hnE1]
    rfl
  have e4 : check_limits_and_notify (fun _ _ => true) today [⟨app, lm, usedE, b⟩] s0 =
      ({ s0 with sent_notifications := (app, .Exceeded) :: s0.sent_notifications },
        [⟨app, .Exceeded, none⟩]) := by
    rw [check_limits_singleton, reset_notifications_of_today today s0 hdate,
      check_one_exceeded_fires _ app lm usedE b s0 [] h0 hE rfl hnE]
    rfl
  have e5 : check_limits_and_notify (fun _ _ => true) today [⟨app, lm, usedE, b⟩]
      ({ s0 with sent_notifications := (app, .Exceeded) :: s0.sent_notifications }) =
      ({ s0 with sent_notifications := (app, .Exceeded) :: s0.sent_notifications }, []) := by
    rw [check_limits_singleton,
      reset_notifications_of_today today
        { s0 with sent_notifications := (app, .Exceeded) :: s0.sent_notifications } hdate,
      check_one_exceeded_dedup _ app lm usedE b
        { s0 with sent_notifications := (app, .Exceeded) :: s0.sent_notifications }
        [] h0 hE hnE2]
  refine ⟨congrArg Prod.snd e1, ?_, ?_, congrArg Prod.snd e4, ?_⟩
  · rw [e1]
    exact congrArg Prod.snd e2
  · rw [e1]
    exact congrArg Prod.snd e3
  · rw [e4]
    exact congrArg Prod.snd e5

/-- Claim C1, witness: limit 4 minutes, 200 seconds used (ratio 5/6)
fires exactly one Warning with remaining minute max(0, 1) = 1, and a
second pass fires nothing. -/
theorem enforcement_thresholds_and_dedup_witness :
    (check_limits_and_notify (fun _ _ => true) "2026-10-12" [⟨"Firefox", 4, 200, false⟩]
        ⟨[], "2026-10-12"⟩).2 =
      [⟨"Firefox", NotificationType.Warning, some (max (((4 : Int) * 60 - 200).tdiv 60) 1)⟩] ∧
    (check_limits_and_notify (fun _ _ => true) "2026-10-12" [⟨"Firefox", 4, 200, false⟩]
      (check_limits_and_notify (fun _ _ => true) "2026-10-12" [⟨"Firefox", 4, 200, false⟩]
        ⟨[], "2026-10-12"⟩).1).2 = [] := by
  have h := enforcement_thresholds_and_dedup "Firefox" "2026-10-12" 4 200 250 false
    ⟨[], "2026-10-12"⟩ (by norm_num) rfl (by norm_num [WARNING_THRESHOLD])
    (by norm_num [EXCEEDED_THRESHOLD]) (by norm_num [EXCEEDED_THRESHOLD]) (by simp) (by simp)
  exact ⟨h.1, h.2.1⟩

/-- Claim C6: `is_active_at` is false when the schedule is disabled or
the weekday is outside the day set; with parsed start/end times, an
overnight window (end < start) is active iff time >= start or
time < end, and a same-day window iff start <= time < end; the overnight
22:00-06:00 fixture is active at 23:00 and 05:00 and inactive at 12:00. -/
theorem schedule_is_active_at_spec :
    (∀ (sch : FocusSchedule) (now : LocalNow), sch.enabled = false →
      is_active_at sch now = false) ∧
    (∀ (sch : FocusSchedule) (now : LocalNow), sch.days.contains now.weekday = false →
      is_active_at sch now = false) ∧
    (∀ (sch : FocusSchedule) (now : LocalNow) (start stop : Nat),
      parse_hm sch.start_time = some start → parse_hm sch.end_time = some stop →
      sch.enabled = true → sch.days.contains now.weekday = true →
      (stop < start →
        (is_active_at sch now = true ↔
          (start ≤ now.time_of_day ∨ now.time_of_day < stop))) ∧
      (start ≤ stop →
        (is_active_at sch now = true ↔
          (start ≤ now.time_of_day ∧ now.time_of_day < stop)))) ∧
    is_active_at night_schedule ⟨3, 82800⟩ = true ∧
    is_active_at night_schedule ⟨3, 18000⟩ = true ∧
    is_active_at night_schedule ⟨3, 43200⟩ = false := by
  refine ⟨?_, ?_, ?_, by decide, by decide, by decide⟩
  · intro sch now h
    simp [is_active_at, h]
  · intro sch now h
    have h2 : now.weekday ∉ sch.days := by simpa using h
    cases he : sch.enabled with
    | false => simp [is_active_at, he]
    | true => simp [is_active_at, he, h2]
  · intro sch now start stop hs he hen hd
    have hd2 : now.weekday ∈ sch.days := by simpa using hd
    constructor
    · intro hlt
      simp [is_active_at, hen, hd2, hs, he, hlt]
    · intro hle
      have hnlt : ¬ stop < start := not_lt.mpr hle
      simp [is_active_at, hen, hd2, hs, he, hnlt]

/-- Claim C6, witness: a disabled schedule, a wrong-weekday instant, and
the overnight window at 23:00 through the general window rule. -/
theorem schedule_is_active_at_spec_witness :
    is_active_at ⟨"w", "Work", [2], "09:00", "17:00", [], false⟩ ⟨2, 36000⟩ = false ∧
    is_active_at ⟨"w", "Work", [2], "09:00", "17:00", [], true⟩ ⟨3, 36000⟩ = false ∧
    is_active_at night_schedule ⟨3, 82800⟩ = true := by
  refine ⟨schedule_is_active_at_spec.1 _ _ rfl, schedule_is_active_at_spec.2.1 _ _ (by decide),
    ?_⟩
  exact ((schedule_is_active_at_spec.2.2.1 night_schedule ⟨3, 82800⟩ 79200 21600
    (by decide) (by decide) rfl (by decide)).1 (by decide)).mpr (by decide)

/-- Claim C7, counterexample: the input "a" reaches the fallback path,
the capitalized result "A" has length 1 < 2, and `extract_app_name`
returns None — not the string "unknown". -/
theorem short_fallback_not_unknown_cex :
    extract_app_name "a" = none ∧ extract_app_name "a" ≠ some "unknown" := by
  exact ⟨by decide, by decide⟩

/-- Claim C7, amended: for every non-empty raw window string whose
normalization reaches the fallback path and produces a result of byte
length < 2, `extract_app_name` rejects that result by returning None (no
identification), not an error and not the string "unknown". -/
theorem short_fallback_rejected_as_none (w : String)
    (hne : ¬ w = "")
    (hex : exactMatchLookup (toLowerString w) = none)
    (hc1 : strContainsSub w "- Code" = false)
    (hc2 : strContainsSub w "Digital Wellbeing" = false)
    (hscan : containsScan (toLowerString w) APP_MAPPINGS = none)
    (hlen : (capitalize_first w).utf8ByteSize < 2) :
    extract_app_name w = none := by
  simp [extract_app_name, hne, hex, hc1, hc2, hscan, hlen]

/-- Claim C7, witness for the amended statement at the input "a". -/
theorem short_fallback_rejected_as_none_witness :
    extract_app_name "a" = none :=
  short_fallback_rejected_as_none "a" (by decide) (by decide) (by decide) (by decide)
    (by decide) (by decide)

/-- Claim C8: whenever the lower-cased input is a key of the exact-match
table, `extract_app_name` returns that entry's display name, regardless
of any contains rule or special-cased title check that might also match
(those run only after the exact lookup misses). -/
theorem exact_match_wins (w d : String)
    (h : exactMatchLookup (toLowerString w) = some d) :
    extract_app_name w = some d := by
  by_cases hw : w = ""
  · rw [hw] at h
    have hempty : exactMatchLookup (toLowerString "") = none := by decide
    rw [hempty] at h
    cases h
  · simp [extract_app_name, hw, h]

/-- Claim C8, witness at the upper-cased exact key "FIREFOX". -/
theorem exact_match_wins_witness :
    exactMatchLookup (toLowerString "FIREFOX") = some "Firefox" ∧
    extract_app_name "FIREFOX" = some "Firefox" :=
  ⟨by decide, exact_match_wins "FIREFOX" "Firefox" (by decide)⟩

/-- Claim C9: `send_notification_if_not_sent` leaves the dedup ledger
unchanged when dispatch fails; an (app, kind) entry appears in the ledger
afterwards only when it was already there or dispatch succeeded for it;
hence a whole enforcement pass with failing dispatch changes nothing and
the same alert fires on the next pass once dispatch succeeds. -/
theorem dedup_records_only_on_dispatch_success (s s0 : TrackerState) (app today : String)
    (nt : NotificationType) (lm used : Int) (b : Bool)
    (hdate : s0.last_reset_date = today)
    (h0 : ¬ lm * 60 = 0)
    (hE : EXCEEDED_THRESHOLD ≤ (used : ℚ) / ((lm : ℚ) * 60))
    (hnE : (app, NotificationType.Exceeded) ∉ s0.sent_notifications) :
    send_notification_if_not_sent false s app nt = (s, false) ∧
    (∀ a n, (a, n) ∈ (send_notification_if_not_sent true s app nt).1.sent_notifications ↔
      ((a, n) ∈ s.sent_notifications ∨ (a, n) = (app, nt))) ∧
    (∀ ok : Bool, ∀ a n,
      (a, n) ∈ (send_notification_if_not_sent ok s app nt).1.sent_notifications →
      ((a, n) ∈ s.sent_notifications ∨ (ok = true ∧ (a, n) = (app, nt)))) ∧
    check_limits_and_notify (fun _ _ => false) today [⟨app, lm, used, b⟩] s0 = (s0, []) ∧
    (check_limits_and_notify (fun _ _ => true) today [⟨app, lm, used, b⟩] s0).2 =
      [⟨app, NotificationType.Exceeded, none⟩] := by
  refine ⟨send_dispatch_fail s app nt, ?_, ?_, ?_, ?_⟩
  · intro a n
    by_cases hmem : (app, nt) ∈ s.sent_notifications
    · rw [send_already_sent true s app nt hmem]
      constructor
      · exact Or.inl
      · rintro (hin | heq)
        · exact hin
        · rw [heq]; exact hmem
    · rw [send_not_sent_fires s app nt hmem]
      simp [List.mem_cons, or_comm]
  · intro ok a n hin
    cases ok with
    | false =>
      rw [send_dispatch_fail s app nt] at hin
      exact Or.inl hin
    | true =>
      by_cases hmem : (app, nt) ∈ s.sent_notifications
      · rw [send_already_sent true s app nt hmem] at hin
        exact Or.inl hin
      · rw [send_not_sent_fires s app nt hmem] at hin
        rcases List.mem_cons.mp hin with heq | hold
        · exact Or.inr ⟨rfl, heq⟩
        · exact Or.inl hold
  · rw [check_limits_singleton, reset_notifications_of_today today s0 hdate]
    exact check_one_exceeded_dispatch_fail _ app lm used b s0 [] h0 hE rfl
  · rw [check_limits_singleton, reset_notifications_of_today today s0 hdate,
      check_one_exceeded_fires _ app lm used b s0 [] h0 hE rfl hnE]
    rfl

/-- Claim C9, witness: dispatch failure leaves an empty ledger empty and
the failed pass fires nothing; the retry with working dispatch fires. -/
theorem dedup_records_only_on_dispatch_success_witness :
    send_notification_if_not_sent false ⟨[], "x"⟩ "Firefox" NotificationType.Warning =
      (⟨[], "x"⟩, false) ∧
    check_limits_and_notify (fun _ _ => false) "2026-10-12" [⟨"Firefox", 4, 250, false⟩]
      ⟨[], "2026-10-12"⟩ = (⟨[], "2026-10-12"⟩, []) ∧
    (check_limits_and_notify (fun _ _ => true) "2026-10-12" [⟨"Firefox", 4, 250, false⟩]
      ⟨[], "2026-10-12"⟩).2 = [⟨"Firefox", NotificationType.Exceeded, none⟩] := by
  have h := dedup_records_only_on_dispatch_success ⟨[], "x"⟩ ⟨[], "2026-10-12"⟩ "Firefox"
    "2026-10-12" NotificationType.Warning 4 250 false rfl (by norm_num)
    (by norm_num [EXCEEDED_THRESHOLD]) (by simp)
  exact ⟨h.1, h.2.2.2.1, h.2.2.2.2⟩

/-- Claim C10: an app with a 0-minute limit and blocking enabled is
reported blocked by `is_app_blocked` even at zero recorded usage, while
the enforcement pass skips every app whose limit_seconds is 0, firing no
alert and leaving the (post-rollover) ledger unchanged. -/
theorem zero_limit_blocked_but_never_alerted (used : Int) (app today : String) (b : Bool)
    (s0 : TrackerState) (oracle : String → NotificationType → Bool)
    (hused : 0 ≤ used) :
    is_app_blocked (some (0, used)) = true ∧
    check_limits_and_notify oracle today [⟨app, 0, used, b⟩] s0 =
      (reset_notifications_if_new_day today s0, []) := by
  constructor
  · simp [is_app_blocked]
    omega
  · rw [check_limits_singleton]
    exact check_one_skip_zero oracle app used b _ []

/-- Claim C10, witness: zero usage, zero limit, blocking enabled. -/
theorem zero_limit_blocked_but_never_alerted_witness :
    is_app_blocked (some (0, 0)) = true ∧
    check_limits_and_notify (fun _ _ => true) "2026-10-12" [⟨"Games", 0, 0, true⟩]
      ⟨[], "2026-10-12"⟩ =
      (reset_notifications_if_new_day "2026-10-12" ⟨[], "2026-10-12"⟩, []) :=
  zero_limit_blocked_but_never_alerted 0 "Games" "2026-10-12" true ⟨[], "2026-10-12"⟩
    (fun _ _ => true) (by norm_num)

end Wellbeing
